import Mathlib

/-!
Verification development for the NovaControl decision core: the Event value
type, the Event Bus (per-subscriber bounded queues with newest-wins overflow
and a latest-event cache), the Safety Guard (arming, emergency, cooldowns,
drag bookkeeping), and the Intent Engine gesture/gaze state machine.

Timestamps are modelled as rationals (Python uses wall-clock floats; none of
the verified properties depend on floating-point rounding).  Python dict
metadata is modelled as an association list from string keys to optional
values, since the code only ever reads metadata through dict.get, which
collapses a stored None and an absent key to the same observation.
-/

namespace NovaControl

/-- A metadata value: the code stores numbers (normalized coordinates, gaze
ratios) and strings (mode tags, source tags) in event metadata. -/
inductive MVal where
  | num : ℚ → MVal
  | str : String → MVal
deriving DecidableEq, Repr

/-- Metadata map, as an association list; a key bound to `none` models a
Python dict entry whose value is None. -/
abbrev Meta := List (String × Option MVal)

/-- Python dict.get: `none` both when the key is absent and when the stored
value is None. -/
def metaGet (m : Meta) (k : String) : Option MVal :=
  match m.lookup k with
  | some v => v
  | none => none

/-- Canonical event structure flowing through the system
(core/event_bus.py, class Event). -/
structure Event where
  ts : ℚ
  type : String
  name : String
  confidence : Option ℚ := none
  meta : Meta := []
deriving DecidableEq, Repr

/-- Safety configuration (core/config.py, SafetyConfig).  Millisecond
quantities are rationals since they are compared against rational
time differences. -/
structure SafetyConfig where
  default_mode : String := "SAFE"
  click_cooldown_ms : ℚ := 250
  drag_hold_ms : ℚ := 600
  auto_disarm_on_tracking_loss : Bool := true
  min_confidence : ℚ := 3 / 5
deriving DecidableEq, Repr

/-- Mutable safety state (actions/safety_guard.py, SafetyState). -/
structure SafetyState where
  armed : Bool := false
  emergency : Bool := false
  last_click_ts : ℚ := 0
  last_scroll_ts : ℚ := 0
  drag_active : Bool := false
deriving DecidableEq, Repr

/-- Python str.upper, modelled over the character list so that it evaluates
inside the kernel (the names compared here are ASCII). -/
def pyUpper (s : String) : String := String.mk (s.data.map Char.toUpper)

/-- SafetyGuard.set_mode: "ARMED" (case-insensitive) arms, "SAFE" disarms,
anything else falls through both branches and leaves the state alone. -/
def set_mode (mode : String) (s : SafetyState) : SafetyState :=
  if pyUpper mode = "ARMED" then { s with armed := true }
  else if pyUpper mode = "SAFE" then { s with armed := false }
  else s

/-- SafetyGuard.emergency_stop. -/
def emergency_stop (s : SafetyState) : SafetyState :=
  { s with emergency := true, armed := false }

/-- SafetyGuard.clear_emergency. -/
def clear_emergency (s : SafetyState) : SafetyState :=
  { s with emergency := false }

/-- SafetyGuard.notify_tracking_lost. -/
def notify_tracking_lost (cfg : SafetyConfig) (s : SafetyState) : SafetyState :=
  if cfg.auto_disarm_on_tracking_loss then { s with armed := false } else s

/-- The action-class intent names gated by arming (safety_guard.py line 54). -/
def actionNames : List String :=
  ["CURSOR_MOVE", "CLICK", "DOUBLE_CLICK", "RIGHT_CLICK", "DRAG_START", "DRAG_STOP", "SCROLL"]

/-- The click-class intent names sharing the click cooldown (line 58). -/
def clickNames : List String := ["CLICK", "DOUBLE_CLICK", "RIGHT_CLICK"]

/-- The confidence gate: present and below the threshold. -/
def confBelow (c : Option ℚ) (minc : ℚ) : Prop :=
  match c with
  | some v => v < minc
  | none => False

instance (c : Option ℚ) (minc : ℚ) : Decidable (confBelow c minc) :=
  match c with
  | some v => inferInstanceAs (Decidable (v < minc))
  | none => inferInstanceAs (Decidable False)

/-- SafetyGuard.approve, with `now` (Python time.time()) passed explicitly.
Returns the decision together with the updated state.  The Python body is a
sequence of `if` blocks over pairwise-disjoint name sets (click-class,
"SCROLL", "DRAG_START", "DRAG_STOP"), so the chain below is equivalent to
the sequential original: at most one of those blocks can fire per call. -/
def approve (cfg : SafetyConfig) (now : ℚ) (s : SafetyState) (intent : Event) :
    Bool × SafetyState :=
  if s.emergency then (false, s)
  else if confBelow intent.confidence cfg.min_confidence then (false, s)
  else
    let name := pyUpper intent.name
    if name ∈ actionNames ∧ ¬ s.armed then (false, s)
    else if name ∈ clickNames then
      if (now - s.last_click_ts) * 1000 < cfg.click_cooldown_ms then (false, s)
      else (true, { s with last_click_ts := now })
    else if name = "SCROLL" then
      if (now - s.last_scroll_ts) * 1000 < cfg.click_cooldown_ms then (false, s)
      else (true, { s with last_scroll_ts := now })
    else if name = "DRAG_START" then (true, { s with drag_active := true })
    else if name = "DRAG_STOP" then (true, { s with drag_active := false })
    else (true, s)

/-! ## Event Bus (core/event_bus.py)

The asyncio scheduling machinery (bind_loop, run_coroutine_threadsafe, the
async generator in subscribe) is concurrency plumbing; what it serializes is
the pure queue/registry manipulation modelled here.  A subscriber is a
(registration key, queue) pair; queues are lists with the oldest element in
front.  publish is given an `Event` (the dict branch of _normalize_event
builds the same structure, and the Event branch is the identity). -/

/-- EventBus._offer: put_nowait, and on QueueFull drop the single oldest
element and put again.  asyncio treats maxsize 0 as unbounded; the bus is
always constructed with a positive capacity (default 256), which is the
regime modelled here. -/
def offer (cap : Nat) (q : List Event) (e : Event) : List Event :=
  if q.length < cap then q ++ [e] else q.drop 1 ++ [e]

/-- Folding _offer over a stream of published events, for a subscriber that
never consumes. -/
def offerAll (cap : Nat) (q : List Event) (es : List Event) : List Event :=
  es.foldl (offer cap) q

/-- The bus state: capacity, subscriber registry, latest-event cache,
closed flag. -/
structure Bus where
  max_queue_size : Nat := 256
  subscribers : List (String × List Event) := []
  latest : String → Option Event := fun _ => none
  closed : Bool := false

/-- EventBus.publish: no-op when closed; otherwise overwrite the latest slot
for the event's type and offer the event to every queue registered under the
event's type and every queue registered under "*".  The Python loop walks
the type list then the wildcard list; queues are independent, so this is the
same per-subscriber update (a queue registered under "*" for an event whose
type is literally "*" is offered twice, as in the source). -/
def publish (b : Bus) (e : Event) : Bus :=
  if b.closed then b
  else
    { b with
      latest := fun t => if t = e.type then some e else b.latest t,
      subscribers := b.subscribers.map fun kq =>
        let q1 := if kq.1 = e.type then offer b.max_queue_size kq.2 e else kq.2
        (kq.1, if kq.1 = "*" then offer b.max_queue_size q1 e else q1) }

/-- EventBus.subscribe registers a fresh empty queue under the given key. -/
def subscribe (b : Bus) (key : String) : Bus :=
  { b with subscribers := b.subscribers ++ [(key, [])] }

/-- EventBus.latest: non-destructive read of the latest-event cache. -/
def busLatest (b : Bus) (t : String) : Option Event := b.latest t

/-- EventBus.close: stop accepting events and clear the registry. -/
def close (b : Bus) : Bus :=
  { b with closed := true, subscribers := [] }

/-! ## Intent Engine (intent/intent_engine.py)

The engine's bus subscription loop and the MouseController calls are I/O
plumbing around the pure state machine modelled here.  Each handler returns
the new engine state, the new safety state, and the list of intents passed
to SafetyGuard.approve paired with the approval verdict (an intent is
published and executed exactly when its verdict is true). -/

/-- Intent Engine private state (intent_engine.py __init__).  last_point
stores the pair of dict.get results from the most recent point event, which
Python keeps even when the looked-up values are None (a tuple of Nones is
still truthy). -/
structure EngineState where
  last_point : Option (Option MVal × Option MVal) := none
  last_gesture : String := "NONE"
  pinch_start_ts : Option ℚ := none
  drag_active : Bool := false
  fist_start_ts : Option ℚ := none
  control_mode : String := "EYE"
  last_gaze_y : ℚ := 1 / 2
deriving DecidableEq, Repr

/-- The screen-gaze calibration transform, an external collaborator backed by
a calibration file: modelled abstractly by its availability flag and its
mapping function (vision/screen_gaze_mapper.py is outside the decision
core). -/
structure GazeMapper where
  avail : Bool
  xmap : ℚ → ℚ → ℚ × ℚ

/-- Python float() applied to a metadata value.  Gaze producers put numbers
under ratio keys (spec interface); float() of a non-numeric string raises in
Python and is not reached in modelled runs. -/
def pyFloat (v : MVal) : ℚ :=
  match v with
  | .num q => q
  | .str _ => 0

/-- IntentEngine._emit_intent: build the intent event, ask the guard, and
report the verdict with the updated guard state (publish/execute happen
exactly on a true verdict). -/
def emit_intent (cfg : SafetyConfig) (now : ℚ) (sg : SafetyState)
    (name : String) (conf : Option ℚ) (meta : Meta) :
    Bool × SafetyState × Event :=
  let intent : Event := { ts := now, type := "intent", name := name, confidence := conf, meta := meta }
  let r := approve cfg now sg intent
  (r.1, r.2, intent)

/-- IntentEngine._handle_gesture.  `now` is the time.time() sample taken at
entry. -/
def handle_gesture (cfg : SafetyConfig) (now : ℚ) (eng : EngineState)
    (sg : SafetyState) (e : Event) :
    EngineState × SafetyState × List (Event × Bool) :=
  let gesture := pyUpper e.name
  if gesture = "OPEN_PALM" then
    let mode' := if eng.control_mode = "EYE" then "HAND" else "EYE"
    let r := emit_intent cfg now sg "CANCEL" e.confidence [("mode", some (MVal.str mode'))]
    ({ eng with control_mode := mode', pinch_start_ts := none, fist_start_ts := none,
                drag_active := false, last_gesture := gesture },
     r.2.1, [(r.2.2, r.1)])
  else if eng.control_mode = "EYE" then
    ({ eng with last_gesture := gesture }, sg, [])
  else if gesture = "FIST" then
    let fistStart := eng.fist_start_ts.getD now
    let hold_ms := (now - fistStart) * 1000
    if 100 ≤ hold_ms then
      let r := emit_intent cfg now sg "CLICK" e.confidence [("mode", some (MVal.str "PRECISE"))]
      ({ eng with fist_start_ts := none, last_gesture := gesture }, r.2.1, [(r.2.2, r.1)])
    else
      ({ eng with fist_start_ts := some fistStart, last_gesture := gesture }, sg, [])
  else
    let eng0 := { eng with fist_start_ts := none }
    let step1 : EngineState × SafetyState × List (Event × Bool) :=
      if gesture = "PINCH" then
        let pinchStart := eng0.pinch_start_ts.getD now
        let hold_ms := (now - pinchStart) * 1000
        let eng0' := { eng0 with pinch_start_ts := some pinchStart }
        if ¬ eng0.drag_active ∧ cfg.drag_hold_ms ≤ hold_ms then
          let r := emit_intent cfg now sg "DRAG_START" e.confidence []
          ({ eng0' with drag_active := r.1 }, r.2.1, [(r.2.2, r.1)])
        else (eng0', sg, [])
      else
        if eng0.drag_active then
          let r := emit_intent cfg now sg "DRAG_STOP" e.confidence []
          ({ eng0 with drag_active := !r.1, pinch_start_ts := none }, r.2.1, [(r.2.2, r.1)])
        else if eng0.pinch_start_ts ≠ none ∧ eng0.last_gesture = "PINCH" then
          let r := emit_intent cfg now sg "CLICK" e.confidence []
          ({ eng0 with pinch_start_ts := none }, r.2.1, [(r.2.2, r.1)])
        else ({ eng0 with pinch_start_ts := none }, sg, [])
    let step2 : EngineState × SafetyState × List (Event × Bool) :=
      if gesture = "POINT" then
        match step1.1.last_point with
        | some (x, y) =>
          let r := emit_intent cfg now step1.2.1 "CURSOR_MOVE" e.confidence
            [("x_norm", x), ("y_norm", y)]
          (step1.1, r.2.1, step1.2.2 ++ [(r.2.2, r.1)])
        | none => step1
      else step1
    ({ step2.1 with last_gesture := gesture }, step2.2.1, step2.2.2)

/-- IntentEngine._handle_gaze. -/
def handle_gaze (gm : GazeMapper) (cfg : SafetyConfig) (now : ℚ)
    (eng : EngineState) (sg : SafetyState) (e : Event) :
    EngineState × SafetyState × List (Event × Bool) :=
  if eng.control_mode = "EYE" then
    let ratioVal := metaGet e.meta "ratio"
    let yRatioVal := metaGet e.meta "y_ratio"
    match ratioVal with
    | none => (eng, sg, [])
    | some r =>
      let x := pyFloat r
      let y := match yRatioVal with
               | some v => pyFloat v
               | none => eng.last_gaze_y
      let xy := if gm.avail then gm.xmap x y else (x, y)
      let r := emit_intent cfg now sg "CURSOR_MOVE" e.confidence
          [("x_norm", some (MVal.num xy.1)), ("y_norm", some (MVal.num xy.2)),
           ("source", some (MVal.str "gaze"))]
      ({ eng with last_gaze_y := xy.2 }, r.2.1, [(r.2.2, r.1)])
  else (eng, sg, [])

/-- IntentEngine._handle_event: dispatch on the event type. -/
def handle_event (gm : GazeMapper) (cfg : SafetyConfig) (now : ℚ)
    (eng : EngineState) (sg : SafetyState) (e : Event) :
    EngineState × SafetyState × List (Event × Bool) :=
  if e.type = "mode" then (eng, set_mode e.name sg, [])
  else if e.type = "system" ∧ e.name = "EMERGENCY_STOP" then (eng, emergency_stop sg, [])
  else if e.type = "gesture" then handle_gesture cfg now eng sg e
  else if e.type = "point" then
    ({ eng with last_point := some (metaGet e.meta "x_norm", metaGet e.meta "y_norm") }, sg, [])
  else if e.type = "gaze" then handle_gaze gm cfg now eng sg e
  else (eng, sg, [])

/-! ## Safety Guard theorems -/

/-- C1: For every intent event and every safety state with emergency set,
approve returns false, regardless of the intent's name, confidence, or
metadata and regardless of armed, cooldown, or drag state. -/
theorem approve_emergency_rejects (cfg : SafetyConfig) (now : ℚ) (s : SafetyState)
    (i : Event) (h : s.emergency = true) :
    (approve cfg now s i).1 = false := by
  simp [approve, h]

theorem approve_emergency_rejects_witness :
    (({ armed := true, emergency := true, last_click_ts := 0, last_scroll_ts := 0,
        drag_active := false } : SafetyState).emergency = true) ∧
    (approve {} 1
      { armed := true, emergency := true, last_click_ts := 0, last_scroll_ts := 0,
        drag_active := false }
      { ts := 1, type := "intent", name := "CLICK", confidence := some (4/5),
        meta := [] }).1 = false :=
  ⟨rfl, approve_emergency_rejects {} 1 _ _ rfl⟩

/-- C9: Whenever approve returns false, the entire safety state (armed,
emergency, both cooldown timestamps, drag flag) is unchanged; mutations
happen only on approving calls. -/
theorem approve_reject_preserves_state (cfg : SafetyConfig) (now : ℚ) (s : SafetyState)
    (i : Event) (h : (approve cfg now s i).1 = false) :
    (approve cfg now s i).2 = s := by
  unfold approve at h ⊢
  dsimp only [] at h ⊢
  split_ifs at h ⊢ <;> simp_all

theorem approve_reject_preserves_state_witness :
    ((approve {} 1
      { armed := false, emergency := false, last_click_ts := 0, last_scroll_ts := 0,
        drag_active := false }
      { ts := 1, type := "intent", name := "CLICK", confidence := none,
        meta := [] }).1 = false) ∧
    (approve {} 1
      { armed := false, emergency := false, last_click_ts := 0, last_scroll_ts := 0,
        drag_active := false }
      { ts := 1, type := "intent", name := "CLICK", confidence := none,
        meta := [] }).2 =
      { armed := false, emergency := false, last_click_ts := 0, last_scroll_ts := 0,
        drag_active := false } :=
  ⟨by decide, approve_reject_preserves_state {} 1 _ _ (by decide)⟩

/-- C2 counterexample: set_mode with the unrecognized string "FOO" on an
armed state leaves armed true, contradicting the claim that every
non-"ARMED" argument sets armed to false. -/
theorem set_mode_unknown_keeps_armed :
    (set_mode "FOO"
      { armed := true, emergency := false, last_click_ts := 0, last_scroll_ts := 0,
        drag_active := false }).armed = true := by
  decide

/-- The configuration of the cooldown scenario: min_confidence 0.6 and
click_cooldown_ms 250 (the defaults of core/config.py). -/
def c4cfg : SafetyConfig :=
  { default_mode := "SAFE", click_cooldown_ms := 250, drag_hold_ms := 600,
    auto_disarm_on_tracking_loss := true, min_confidence := 3 / 5 }

/-- The armed, non-emergency guard state the cooldown scenario starts from. -/
def c4guard : SafetyState :=
  { armed := true, emergency := false, last_click_ts := 0, last_scroll_ts := 0,
    drag_active := false }

/-- A CLICK intent with confidence 0.8 stamped at time t. -/
def c4click (t : ℚ) : Event :=
  { ts := t, type := "intent", name := "CLICK", confidence := some (4 / 5), meta := [] }

/-- C4: Starting armed and non-emergency with the default thresholds, a
CLICK with confidence 0.8 at scenario time b is approved, the same intent
0.1 s later is rejected by the cooldown without touching the state, and the
same intent 0.3 s after the first is approved again.  The scenario's t = 0
is the wall-clock instant b; the guard's initial last-click timestamp is the
epoch value 0, so the scenario needs b to lie at least one cooldown after
the epoch (every real clock sample does). -/
theorem click_cooldown_scenario (b : ℚ) (hb : 1 / 4 ≤ b) :
    (approve c4cfg b c4guard (c4click b)).1 = true ∧
    (approve c4cfg (b + 1 / 10) (approve c4cfg b c4guard (c4click b)).2
      (c4click (b + 1 / 10))).1 = false ∧
    (approve c4cfg (b + 1 / 10) (approve c4cfg b c4guard (c4click b)).2
      (c4click (b + 1 / 10))).2 = (approve c4cfg b c4guard (c4click b)).2 ∧
    (approve c4cfg (b + 3 / 10) (approve c4cfg b c4guard (c4click b)).2
      (c4click (b + 3 / 10))).1 = true := by
  have hup : pyUpper "CLICK" = "CLICK" := by decide
  have hact : "CLICK" ∈ actionNames := by decide
  have hclick : "CLICK" ∈ clickNames := by decide
  have hcb : ¬ confBelow (some ((4 : ℚ) / 5)) ((3 : ℚ) / 5) := by
    simp only [confBelow]
    norm_num
  have h1 : ¬ ((b - 0) * 1000 < (250 : ℚ)) := by nlinarith
  have h2 : ((b + 1 / 10 - b) * 1000 : ℚ) < 250 := by norm_num
  have h3 : ¬ ((b + 3 / 10 - b) * 1000 < (250 : ℚ)) := by norm_num
  have hstep1 : approve c4cfg b c4guard (c4click b) =
      (true, { armed := true, emergency := false, last_click_ts := b,
               last_scroll_ts := 0, drag_active := false }) := by
    unfold approve c4cfg c4guard c4click
    dsimp only []
    rw [hup]
    simp [hcb, hact, hclick, h1]
    linarith
  rw [hstep1]
  have hstep2 : approve c4cfg (b + 1 / 10)
      ({ armed := true, emergency := false, last_click_ts := b,
         last_scroll_ts := 0, drag_active := false } : SafetyState)
      (c4click (b + 1 / 10)) =
      (false, { armed := true, emergency := false, last_click_ts := b,
                last_scroll_ts := 0, drag_active := false }) := by
    unfold approve c4cfg c4click
    dsimp only []
    rw [hup]
    simp [hcb, hact, hclick, h2]
    norm_num
  have hstep3 : (approve c4cfg (b + 3 / 10)
      ({ armed := true, emergency := false, last_click_ts := b,
         last_scroll_ts := 0, drag_active := false } : SafetyState)
      (c4click (b + 3 / 10))).1 = true := by
    unfold approve c4cfg c4click
    dsimp only []
    rw [hup]
    simp [hcb, hact, hclick, h3]
    norm_num
  exact ⟨rfl, by rw [hstep2], by rw [hstep2], hstep3⟩

theorem click_cooldown_scenario_witness :
    ((1 : ℚ) / 4 ≤ 1) ∧
    ((approve c4cfg 1 c4guard (c4click 1)).1 = true ∧
    (approve c4cfg (1 + 1 / 10) (approve c4cfg 1 c4guard (c4click 1)).2
      (c4click (1 + 1 / 10))).1 = false ∧
    (approve c4cfg (1 + 1 / 10) (approve c4cfg 1 c4guard (c4click 1)).2
      (c4click (1 + 1 / 10))).2 = (approve c4cfg 1 c4guard (c4click 1)).2 ∧
    (approve c4cfg (1 + 3 / 10) (approve c4cfg 1 c4guard (c4click 1)).2
      (c4click (1 + 3 / 10))).1 = true) :=
  ⟨by norm_num, click_cooldown_scenario 1 (by norm_num)⟩

/-- C2 (amended): set_mode arms exactly on "ARMED" (case-insensitively),
disarms exactly on "SAFE" (case-insensitively), leaves armed unchanged on
any other string, and never touches the rest of the state. -/
theorem set_mode_cases (mode : String) (s : SafetyState) :
    ((set_mode mode s).armed =
      (if pyUpper mode = "ARMED" then true
       else if pyUpper mode = "SAFE" then false
       else s.armed)) ∧
    (set_mode mode s).emergency = s.emergency ∧
    (set_mode mode s).last_click_ts = s.last_click_ts ∧
    (set_mode mode s).last_scroll_ts = s.last_scroll_ts ∧
    (set_mode mode s).drag_active = s.drag_active := by
  unfold set_mode
  split_ifs <;> simp_all

/-! ## Event Bus theorems -/

/-- Offering one event to a queue that is within capacity keeps it within
capacity, provided the capacity is positive. -/
theorem offer_length_le (cap : Nat) (hcap : 1 ≤ cap) (q : List Event) (e : Event)
    (hq : q.length ≤ cap) : (offer cap q e).length ≤ cap := by
  unfold offer
  split_ifs with h
  · simp
    omega
  · simp
    omega

/-- Folding the overflow policy over a stream keeps exactly the newest
`cap` elements: the result is the suffix of the whole stream past the first
`length - cap` elements. -/
theorem offerAll_eq_drop (cap : Nat) (hcap : 1 ≤ cap) :
    ∀ (es : List Event) (q : List Event), q.length ≤ cap →
      offerAll cap q es = (q ++ es).drop ((q ++ es).length - cap) := by
  intro es
  induction es with
  | nil =>
    intro q hq
    simp [offerAll, Nat.sub_eq_zero_of_le hq]
  | cons e es ih =>
    intro q hq
    have hstep := ih (offer cap q e) (offer_length_le cap hcap q e hq)
    unfold offerAll at hstep ⊢
    simp only [List.foldl_cons]
    rw [hstep]
    by_cases h : q.length < cap
    · have hoffer : offer cap q e = q ++ [e] := by simp [offer, h]
      rw [hoffer]
      simp [List.append_assoc]
    · have hlen : q.length = cap := by omega
      have hoffer : offer cap q e = q.drop 1 ++ [e] := by simp [offer, h]
      have hdrop : q.drop 1 ++ ([e] ++ es) = (q ++ ([e] ++ es)).drop 1 := by
        rw [List.drop_append_of_le_length (by omega)]
      rw [hoffer, List.append_assoc, hdrop, List.drop_drop]
      have hsing : [e] ++ es = e :: es := rfl
      rw [hsing]
      congr 1
      simp [List.length_drop, hlen]
      omega

/-- C5: With a positive capacity N and a subscriber that never consumes,
publishing N+1 events leaves the queue holding exactly the newest N events
in publish order (the single oldest was dropped), and no prefix of the
stream ever pushes the queue length beyond N. -/
theorem overflow_keeps_newest (cap : Nat) (hcap : 1 ≤ cap) (es : List Event)
    (hlen : es.length = cap + 1) :
    offerAll cap [] es = es.drop 1 ∧
    ∀ k : Nat, (offerAll cap [] (es.take k)).length ≤ cap := by
  constructor
  · rw [offerAll_eq_drop cap hcap es [] (by simp)]
    simp [hlen]
  · intro k
    rw [offerAll_eq_drop cap hcap (es.take k) [] (by simp)]
    simp
    omega

theorem overflow_keeps_newest_witness :
    (1 ≤ 2) ∧
    (([({ ts := 1, type := "gesture", name := "A" } : Event),
       { ts := 2, type := "gesture", name := "B" },
       { ts := 3, type := "gesture", name := "C" }] : List Event).length = 2 + 1) ∧
    (offerAll 2 []
      [({ ts := 1, type := "gesture", name := "A" } : Event),
       { ts := 2, type := "gesture", name := "B" },
       { ts := 3, type := "gesture", name := "C" }] =
      ([({ ts := 1, type := "gesture", name := "A" } : Event),
        { ts := 2, type := "gesture", name := "B" },
        { ts := 3, type := "gesture", name := "C" }]).drop 1 ∧
     ∀ k : Nat,
      (offerAll 2 []
        (([({ ts := 1, type := "gesture", name := "A" } : Event),
           { ts := 2, type := "gesture", name := "B" },
           { ts := 3, type := "gesture", name := "C" }]).take k)).length ≤ 2) :=
  ⟨by decide, by decide, overflow_keeps_newest 2 (by decide) _ (by decide)⟩

/-- C6: Publishing an event (whose type is one of the data model's event
types, hence not the wildcard key) on an open bus adds exactly one copy to
the queue of every subscriber registered for that type or for the wildcard,
and leaves every other subscriber's queue untouched. -/
theorem publish_fanout (b : Bus) (e : Event) (hopen : b.closed = false)
    (ht : e.type ≠ "*") (i : Nat) (k : String) (q : List Event)
    (hsub : b.subscribers[i]? = some (k, q))
    (hroom : q.length < b.max_queue_size) :
    ∃ q2 : List Event,
      (publish b e).subscribers[i]? = some (k, q2) ∧
      q2.count e = q.count e + (if k = e.type ∨ k = "*" then 1 else 0) ∧
      (¬ (k = e.type ∨ k = "*") → q2 = q) := by
  have hoffer : offer b.max_queue_size q e = q ++ [e] := by simp [offer, hroom]
  simp only [publish, hopen, if_neg Bool.false_ne_true, List.getElem?_map, hsub,
    Option.map_some]
  have ht2 : ("*" : String) ≠ e.type := fun hh => ht hh.symm
  by_cases hk1 : k = e.type
  · by_cases hk2 : k = "*"
    · exact absurd (hk1.symm.trans hk2) ht
    · refine ⟨q ++ [e], ?_, ?_, ?_⟩
      · simp [hk1, hk2, hoffer, ht2, ht]
      · simp [hk1, List.count_append]
      · intro hcon
        exact absurd (Or.inl hk1) hcon
  · by_cases hk2 : k = "*"
    · refine ⟨q ++ [e], ?_, ?_, ?_⟩
      · simp [hk1, hk2, hoffer, ht2]
      · simp [hk2, hk1, List.count_append]
      · intro hcon
        exact absurd (Or.inr hk2) hcon
    · refine ⟨q, ?_, ?_, ?_⟩
      · simp [hk1, hk2]
      · simp [hk1, hk2]
      · intro _
        rfl

theorem publish_fanout_witness :
    (({ max_queue_size := 4,
        subscribers := [("gesture", []), ("gesture", []), ("*", [])],
        latest := fun _ => none, closed := false } : Bus).closed = false) ∧
    (({ ts := 1, type := "gesture", name := "PINCH" } : Event).type ≠ "*") ∧
    (∃ q2 : List Event,
      (publish
        { max_queue_size := 4,
          subscribers := [("gesture", []), ("gesture", []), ("*", [])],
          latest := fun _ => none, closed := false }
        { ts := 1, type := "gesture", name := "PINCH" }).subscribers[2]? =
        some ("*", q2) ∧
      q2.count { ts := 1, type := "gesture", name := "PINCH" } =
        ([] : List Event).count { ts := 1, type := "gesture", name := "PINCH" } +
          (if "*" = ({ ts := 1, type := "gesture", name := "PINCH" } : Event).type
              ∨ "*" = "*" then 1 else 0) ∧
      (¬ ("*" = ({ ts := 1, type := "gesture", name := "PINCH" } : Event).type
              ∨ "*" = "*") → q2 = [])) :=
  ⟨rfl, by decide,
    publish_fanout _ _ rfl (by decide) 2 "*" [] rfl (by decide)⟩

/-- C7: Publishing any event after the bus has been closed is a silent
no-op: the bus state (latest cache and every subscriber queue included) is
exactly what close left behind. -/
theorem publish_after_close (b : Bus) (e : Event) :
    publish (close b) e = close b := by
  simp [publish, close]

/-! ## Intent Engine theorems -/

/-- C8: An OPEN_PALM gesture handled in HAND mode with a locally active drag
toggles the control mode to EYE, passes exactly one CANCEL intent carrying
the new mode to the guard, and clears the drag flag and both hold timers —
whatever the guard decides about the CANCEL. -/
theorem open_palm_during_drag (cfg : SafetyConfig) (now : ℚ) (eng : EngineState)
    (sg : SafetyState) (e : Event) (hm : eng.control_mode = "HAND")
    (hd : eng.drag_active = true) (hn : pyUpper e.name = "OPEN_PALM") :
    (handle_gesture cfg now eng sg e).1.control_mode = "EYE" ∧
    (handle_gesture cfg now eng sg e).2.2 =
      [({ ts := now, type := "intent", name := "CANCEL", confidence := e.confidence,
          meta := [("mode", some (MVal.str "EYE"))] },
        (approve cfg now sg
          { ts := now, type := "intent", name := "CANCEL", confidence := e.confidence,
            meta := [("mode", some (MVal.str "EYE"))] }).1)] ∧
    (handle_gesture cfg now eng sg e).1.drag_active = false ∧
    (handle_gesture cfg now eng sg e).1.pinch_start_ts = none ∧
    (handle_gesture cfg now eng sg e).1.fist_start_ts = none := by
  have hne : ("HAND" : String) ≠ "EYE" := by decide
  simp [handle_gesture, emit_intent, hn, hm, hne]

theorem open_palm_during_drag_witness :
    (({ last_point := none, last_gesture := "PINCH", pinch_start_ts := some 0,
        drag_active := true, fist_start_ts := some 0, control_mode := "HAND",
        last_gaze_y := 1 / 2 } : EngineState).control_mode = "HAND") ∧
    (({ last_point := none, last_gesture := "PINCH", pinch_start_ts := some 0,
        drag_active := true, fist_start_ts := some 0, control_mode := "HAND",
        last_gaze_y := 1 / 2 } : EngineState).drag_active = true) ∧
    (pyUpper
      ({ ts := 1, type := "gesture", name := "OPEN_PALM", confidence := none,
         meta := [] } : Event).name = "OPEN_PALM") ∧
    ((handle_gesture {} 1
        { last_point := none, last_gesture := "PINCH", pinch_start_ts := some 0,
          drag_active := true, fist_start_ts := some 0, control_mode := "HAND",
          last_gaze_y := 1 / 2 }
        { armed := true, emergency := false, last_click_ts := 0, last_scroll_ts := 0,
          drag_active := true }
        { ts := 1, type := "gesture", name := "OPEN_PALM", confidence := none,
          meta := [] }).1.control_mode = "EYE" ∧
     (handle_gesture {} 1
        { last_point := none, last_gesture := "PINCH", pinch_start_ts := some 0,
          drag_active := true, fist_start_ts := some 0, control_mode := "HAND",
          last_gaze_y := 1 / 2 }
        { armed := true, emergency := false, last_click_ts := 0, last_scroll_ts := 0,
          drag_active := true }
        { ts := 1, type := "gesture", name := "OPEN_PALM", confidence := none,
          meta := [] }).2.2 =
      [({ ts := 1, type := "intent", name := "CANCEL", confidence := none,
          meta := [("mode", some (MVal.str "EYE"))] },
        (approve {} 1
          { armed := true, emergency := false, last_click_ts := 0, last_scroll_ts := 0,
            drag_active := true }
          { ts := 1, type := "intent", name := "CANCEL", confidence := none,
            meta := [("mode", some (MVal.str "EYE"))] }).1)] ∧
     (handle_gesture {} 1
        { last_point := none, last_gesture := "PINCH", pinch_start_ts := some 0,
          drag_active := true, fist_start_ts := some 0, control_mode := "HAND",
          last_gaze_y := 1 / 2 }
        { armed := true, emergency := false, last_click_ts := 0, last_scroll_ts := 0,
          drag_active := true }
        { ts := 1, type := "gesture", name := "OPEN_PALM", confidence := none,
          meta := [] }).1.drag_active = false ∧
     (handle_gesture {} 1
        { last_point := none, last_gesture := "PINCH", pinch_start_ts := some 0,
          drag_active := true, fist_start_ts := some 0, control_mode := "HAND",
          last_gaze_y := 1 / 2 }
        { armed := true, emergency := false, last_click_ts := 0, last_scroll_ts := 0,
          drag_active := true }
        { ts := 1, type := "gesture", name := "OPEN_PALM", confidence := none,
          meta := [] }).1.pinch_start_ts = none ∧
     (handle_gesture {} 1
        { last_point := none, last_gesture := "PINCH", pinch_start_ts := some 0,
          drag_active := true, fist_start_ts := some 0, control_mode := "HAND",
          last_gaze_y := 1 / 2 }
        { armed := true, emergency := false, last_click_ts := 0, last_scroll_ts := 0,
          drag_active := true }
        { ts := 1, type := "gesture", name := "OPEN_PALM", confidence := none,
          meta := [] }).1.fist_start_ts = none) :=
  ⟨rfl, rfl, by decide, open_palm_during_drag {} 1 _ _ _ rfl rfl (by decide)⟩

/-- C3 counterexample: a FIST gesture (explicitly cited by the claim) in
HAND mode with the drag locally active and a pinch timer running produces no
intent at all — no DRAG_STOP is emitted, the drag flag stays set, and the
pinch hold timer is not reset, because the FIST branch returns before the
transition-away-from-PINCH logic. -/
theorem fist_during_drag_inert :
    ((handle_gesture {} 1
        { last_point := none, last_gesture := "PINCH", pinch_start_ts := some 0,
          drag_active := true, fist_start_ts := none, control_mode := "HAND",
          last_gaze_y := 1 / 2 }
        { armed := true, emergency := false, last_click_ts := 0, last_scroll_ts := 0,
          drag_active := true }
        { ts := 1, type := "gesture", name := "FIST", confidence := none,
          meta := [] }).2.2 = []) ∧
    ((handle_gesture {} 1
        { last_point := none, last_gesture := "PINCH", pinch_start_ts := some 0,
          drag_active := true, fist_start_ts := none, control_mode := "HAND",
          last_gaze_y := 1 / 2 }
        { armed := true, emergency := false, last_click_ts := 0, last_scroll_ts := 0,
          drag_active := true }
        { ts := 1, type := "gesture", name := "FIST", confidence := none,
          meta := [] }).1.pinch_start_ts = some 0) ∧
    ((handle_gesture {} 1
        { last_point := none, last_gesture := "PINCH", pinch_start_ts := some 0,
          drag_active := true, fist_start_ts := none, control_mode := "HAND",
          last_gaze_y := 1 / 2 }
        { armed := true, emergency := false, last_click_ts := 0, last_scroll_ts := 0,
          drag_active := true }
        { ts := 1, type := "gesture", name := "FIST", confidence := none,
          meta := [] }).1.drag_active = true) := by
  have hne : pyUpper "FIST" = "FIST" := by decide
  refine ⟨?_, ?_, ?_⟩ <;>
    · simp [handle_gesture, emit_intent, hne]
      norm_num

/-- C3 (amended): Any gesture other than PINCH, OPEN_PALM and FIST (e.g.
POINT, UNKNOWN, NONE), handled in HAND mode while the local drag flag is
set, passes a DRAG_STOP intent to the guard, resets the pinch hold timer,
and clears the local drag flag exactly when the guard approves. -/
theorem drag_stop_on_transition (cfg : SafetyConfig) (now : ℚ) (eng : EngineState)
    (sg : SafetyState) (e : Event) (hm : eng.control_mode = "HAND")
    (hd : eng.drag_active = true)
    (h1 : pyUpper e.name ≠ "OPEN_PALM") (h2 : pyUpper e.name ≠ "FIST")
    (h3 : pyUpper e.name ≠ "PINCH") :
    (({ ts := now, type := "intent", name := "DRAG_STOP", confidence := e.confidence,
        meta := [] } : Event),
      (approve cfg now sg
        { ts := now, type := "intent", name := "DRAG_STOP", confidence := e.confidence,
          meta := [] }).1) ∈ (handle_gesture cfg now eng sg e).2.2 ∧
    (handle_gesture cfg now eng sg e).1.pinch_start_ts = none ∧
    (handle_gesture cfg now eng sg e).1.drag_active =
      !(approve cfg now sg
        { ts := now, type := "intent", name := "DRAG_STOP", confidence := e.confidence,
          meta := [] }).1 := by
  have hne : ("HAND" : String) ≠ "EYE" := by decide
  by_cases hp : pyUpper e.name = "POINT"
  · rcases hlp : eng.last_point with _ | ⟨x, y⟩
    · simp [handle_gesture, emit_intent, hm, hne, h1, h2, h3, hd, hp, hlp]
    · simp [handle_gesture, emit_intent, hm, hne, h1, h2, h3, hd, hp, hlp]
  · simp [handle_gesture, emit_intent, hm, hne, h1, h2, h3, hd, hp]

theorem drag_stop_on_transition_witness :
    (({ last_point := none, last_gesture := "PINCH", pinch_start_ts := some 0,
        drag_active := true, fist_start_ts := none, control_mode := "HAND",
        last_gaze_y := 1 / 2 } : EngineState).control_mode = "HAND") ∧
    (({ last_point := none, last_gesture := "PINCH", pinch_start_ts := some 0,
        drag_active := true, fist_start_ts := none, control_mode := "HAND",
        last_gaze_y := 1 / 2 } : EngineState).drag_active = true) ∧
    ((({ ts := 1, type := "intent", name := "DRAG_STOP", confidence := none,
         meta := [] } : Event),
       (approve {} 1
         { armed := true, emergency := false, last_click_ts := 0, last_scroll_ts := 0,
           drag_active := true }
         { ts := 1, type := "intent", name := "DRAG_STOP", confidence := none,
           meta := [] }).1) ∈
      (handle_gesture {} 1
        { last_point := none, last_gesture := "PINCH", pinch_start_ts := some 0,
          drag_active := true, fist_start_ts := none, control_mode := "HAND",
          last_gaze_y := 1 / 2 }
        { armed := true, emergency := false, last_click_ts := 0, last_scroll_ts := 0,
          drag_active := true }
        { ts := 1, type := "gesture", name := "UNKNOWN", confidence := none,
          meta := [] }).2.2 ∧
     (handle_gesture {} 1
        { last_point := none, last_gesture := "PINCH", pinch_start_ts := some 0,
          drag_active := true, fist_start_ts := none, control_mode := "HAND",
          last_gaze_y := 1 / 2 }
        { armed := true, emergency := false, last_click_ts := 0, last_scroll_ts := 0,
          drag_active := true }
        { ts := 1, type := "gesture", name := "UNKNOWN", confidence := none,
          meta := [] }).1.pinch_start_ts = none ∧
     (handle_gesture {} 1
        { last_point := none, last_gesture := "PINCH", pinch_start_ts := some 0,
          drag_active := true, fist_start_ts := none, control_mode := "HAND",
          last_gaze_y := 1 / 2 }
        { armed := true, emergency := false, last_click_ts := 0, last_scroll_ts := 0,
          drag_active := true }
        { ts := 1, type := "gesture", name := "UNKNOWN", confidence := none,
          meta := [] }).1.drag_active =
      !(approve {} 1
          { armed := true, emergency := false, last_click_ts := 0, last_scroll_ts := 0,
            drag_active := true }
          { ts := 1, type := "intent", name := "DRAG_STOP", confidence := none,
            meta := [] }).1) :=
  ⟨rfl, rfl,
    drag_stop_on_transition {} 1 _ _ _ rfl rfl (by decide) (by decide) (by decide)⟩

/-- C10: A gaze event whose metadata has no "ratio" key, handled in EYE
mode, produces no intent and leaves the engine state (last_gaze_y included)
and the guard state exactly as they were; the last-known-vertical fallback
is never consulted on this path. -/
theorem gaze_missing_ratio_inert (gm : GazeMapper) (cfg : SafetyConfig) (now : ℚ)
    (eng : EngineState) (sg : SafetyState) (e : Event)
    (hm : eng.control_mode = "EYE") (hr : metaGet e.meta "ratio" = none) :
    handle_gaze gm cfg now eng sg e = (eng, sg, []) := by
  simp [handle_gaze, hm, hr]

theorem gaze_missing_ratio_inert_witness :
    (({} : EngineState).control_mode = "EYE") ∧
    (metaGet
      ({ ts := 1, type := "gaze", name := "LEFT", confidence := none,
         meta := [("y_ratio", some (MVal.num 0))] } : Event).meta "ratio" = none) ∧
    (handle_gaze { avail := false, xmap := fun x y => (x, y) } {} 1 {} {}
      { ts := 1, type := "gaze", name := "LEFT", confidence := none,
        meta := [("y_ratio", some (MVal.num 0))] } = ({}, {}, [])) :=
  ⟨rfl, by decide,
    gaze_missing_ratio_inert { avail := false, xmap := fun x y => (x, y) } {} 1 {} {}
      _ rfl (by decide)⟩

end NovaControl
